import Mathlib

/-!
Verification of the cross-thread coordination layer of a Kaldi voice-command
front end (`kaldi_main.py`): the status-projection mechanism (`FakeStringVar`,
`App.set_visual_context`), the sleep/wake state machine
(`load_sleep_wake_grammar`), the shutdown/restart triggers
(`App.do_quit`, `load_ui_grammar`, `restart_process`), the status
notification dispatch (`notify_status`), the file-change debounce
(`WatchDogFileChangeHandler.on_any_event`) and the recognition callback
(`on_recognition`).

Mutable state is embedded by explicit state passing; side effects on
collaborators (grammar exclusiveness toggles, status notifications, engine
disconnects, process re-exec) are recorded as traces; the Python `KeyError`
raised by `del` on a missing dictionary key is embedded as `Except.error`.
-/

namespace Kaldi

/-! ### StatusChannel: FakeStringVar and its upgrade to a live tk StringVar -/

/-- `FakeStringVar`: a buffered string value usable before the tk root exists. -/
structure FakeStringVar where
  value : String
deriving DecidableEq, Repr

/-- `FakeStringVar.set` replaces the buffered value. -/
def FakeStringVar.set (_v : FakeStringVar) (s : String) : FakeStringVar :=
  { value := s }

/-- A live `tk.StringVar`; only its held string is relevant here. -/
structure StringVar where
  value : String
deriving DecidableEq, Repr

/-- `FakeStringVar.upgrade` returns `tk.StringVar(value=self.value)`: the live
variable is seeded with the buffered value. -/
def FakeStringVar.upgrade (v : FakeStringVar) : StringVar :=
  { value := v.value }

/-- Reading the live value of a `tk.StringVar`. -/
def StringVar.get (v : StringVar) : String :=
  v.value

/-! ### App.set_visual_context: the composite context dictionary and its view

The Python `dict` is embedded as an insertion-ordered association list with
unique keys. `dict[k] = v` updates in place or appends; `del dict[k]` raises
`KeyError` when the key is absent. -/

/-- Python `self.context[name] = value`: update in place if present, else
append at the end (insertion order). -/
def dictSet (ctx : List (String × String)) (name value : String) :
    List (String × String) :=
  if ctx.any (fun kv => kv.1 = name) then
    ctx.map (fun kv => if kv.1 = name then (name, value) else kv)
  else
    ctx ++ [(name, value)]

/-- Python `del self.context[name]`: raises `KeyError` when absent. -/
def dictDel (ctx : List (String × String)) (name : String) :
    Except Unit (List (String × String)) :=
  if ctx.any (fun kv => kv.1 = name) then
    Except.ok (ctx.filter (fun kv => kv.1 ≠ name))
  else
    Except.error ()

/-- Python's lexicographic string comparison, on code-point lists. -/
def charListLe : List Char → List Char → Bool
  | [], _ => true
  | _ :: _, [] => false
  | c :: cs, d :: ds =>
    if c.toNat < d.toNat then true
    else if d.toNat < c.toNat then false
    else charListLe cs ds

/-- Python `a <= b` on strings: lexicographic by code point. -/
def strLe (a b : String) : Bool :=
  charListLe a.data b.data

/-- `strLe` as a relation, for sorting. -/
def strLeRel (a b : String) : Prop :=
  strLe a b = true

instance : DecidableRel strLeRel :=
  fun a b => instDecidableEqBool (strLe a b) true

/-- Python `a <= b` extended to context entries compared by key, for the
spec-modelled by-key sort. -/
def keyLeRel (a b : String × String) : Prop :=
  strLe a.1 b.1 = true

instance : DecidableRel keyLeRel :=
  fun a b => instDecidableEqBool (strLe a.1 b.1) true

/-- The composite view built by `App.set_visual_context`: Python
`"\n".join(sorted(f"\x7bname\x7d: \x7bvalue\x7d" for ...))` sorts the
already-formatted lines as whole strings. -/
def renderContext (ctx : List (String × String)) : String :=
  String.intercalate "\n"
    (List.insertionSort strLeRel (ctx.map (fun kv => kv.1 ++ ": " ++ kv.2)))

/-- Modelled from the spec's words, for comparison with `renderContext`:
"the entries sorted by key, each formatted as one 'key: value' line, joined
by newlines". -/
def renderContextSpec (ctx : List (String × String)) : String :=
  String.intercalate "\n"
    ((List.insertionSort keyLeRel ctx).map (fun kv => kv.1 ++ ": " ++ kv.2))

/-- `App.set_visual_context(name, value)`: `value = None` deletes the key
(possibly raising `KeyError`), otherwise stores it; either way the composite
view is regenerated. Returns the new context and the string written to
`context_var`. -/
def set_visual_context (ctx : List (String × String)) (name : String)
    (value : Option String) :
    Except Unit (List (String × String) × String) :=
  match value with
  | none =>
    match dictDel ctx name with
    | Except.error e => Except.error e
    | Except.ok ctx2 => Except.ok (ctx2, renderContext ctx2)
  | some v =>
    let ctx2 := dictSet ctx name v
    Except.ok (ctx2, renderContext ctx2)

/-! ### Shutdown triggers

`main` constructs `App(do_quit=engine.disconnect)` and
`load_ui_grammar(do_quit=lambda: engine.disconnect(), ...)`. The engine is
embedded as a counter of `disconnect()` calls. -/

/-- The external engine, reduced to the number of `disconnect()` calls made
on it. -/
structure EngineState where
  disconnect_calls : Nat
deriving DecidableEq, Repr

/-- `engine.disconnect()`. -/
def EngineState.disconnect (e : EngineState) : EngineState :=
  { disconnect_calls := e.disconnect_calls + 1 }

/-- The window-close confirmation path: `App` is constructed with
`do_quit=engine.disconnect`, and `_on_window_close` calls `self.do_quit()`. -/
def app_do_quit : EngineState → EngineState :=
  EngineState.disconnect

/-- The voice path: `load_ui_grammar` maps "please quit the kaldi UI" to
`lambda: engine.disconnect()`. -/
def voice_do_quit : EngineState → EngineState :=
  EngineState.disconnect

/-! ### restart_process -/

/-- Observable process-level actions taken by a restart trigger. -/
inductive ProcAction where
  | disconnect
  | execl (path : String) (args : List String)
deriving DecidableEq, Repr

/-- `restart_process()`: `os.execl(python, python, *sys.argv)` where `python`
is `sys.executable`. It emits exactly one action: the re-exec. -/
def restart_process (python : String) (argv : List String) : List ProcAction :=
  [ProcAction.execl python (python :: argv)]

/-- Both restart trigger sites (`load_ui_grammar`'s voice command and the
watchdog observer) pass `do_restart=restart_process` directly. -/
def do_restart : String → List String → List ProcAction :=
  restart_process

/-! ### Sleep/wake state machine (`load_sleep_wake_grammar`) -/

/-- `AppStatus` enum. -/
inductive AppStatus where
  | LOADING
  | READY
  | SLEEPING
deriving DecidableEq, Repr

/-- The state touched by the `sleep`/`wake` closures: the global `sleeping`
flag, the sleep grammar's current exclusiveness, and traces of every
`sleep_grammar.set_exclusiveness(b)` call and every `notify_status(s)` call. -/
structure SleepWakeState where
  sleeping : Bool
  exclusive : Bool
  exclusiveness_calls : List Bool
  notifications : List AppStatus
deriving DecidableEq, Repr

/-- `sleep_grammar.set_exclusiveness(b)`: sets the flag and is recorded in
the call trace. -/
def set_exclusiveness (b : Bool) (st : SleepWakeState) : SleepWakeState :=
  { st with exclusive := b, exclusiveness_calls := st.exclusiveness_calls ++ [b] }

/-- A `notify_status(s)` call, recorded in the notification trace. -/
def notifyTrace (s : AppStatus) (st : SleepWakeState) : SleepWakeState :=
  { st with notifications := st.notifications ++ [s] }

/-- The `sleep(force=False)` closure: the guard `if not sleeping or force`
protects the flag flip and the exclusiveness toggle, but
`notify_status(AppStatus.SLEEPING)` runs unconditionally. -/
def sleep (force : Bool) (st : SleepWakeState) : SleepWakeState :=
  let st2 :=
    if !st.sleeping || force then
      set_exclusiveness true { st with sleeping := true }
    else
      st
  notifyTrace AppStatus.SLEEPING st2

/-- The `wake(force=False)` closure: the guard `if sleeping or force`
protects the flag flip and the exclusiveness toggle, but
`notify_status(AppStatus.READY)` runs unconditionally. -/
def wake (force : Bool) (st : SleepWakeState) : SleepWakeState :=
  let st2 :=
    if st.sleeping || force then
      set_exclusiveness false { st with sleeping := false }
    else
      st
  notifyTrace AppStatus.READY st2

/-- The noise rule's gate, `FuncContext(lambda: sleeping)`. -/
def sleep_noise_context (st : SleepWakeState) : Bool :=
  st.sleeping

/-- The tail of `load_sleep_wake_grammar`: after loading the grammar it runs
`wake(force=True)` or `sleep(force=True)` depending on `initial_awake`. -/
def load_sleep_wake_grammar (initial_awake : Bool) (st : SleepWakeState) :
    SleepWakeState :=
  if initial_awake then wake true st else sleep true st

/-- State at module load: global `sleeping = False`, a freshly constructed
non-exclusive grammar, and no calls made yet. -/
def initialSleepWakeState : SleepWakeState :=
  { sleeping := false, exclusive := false, exclusiveness_calls := [],
    notifications := [] }

/-! ### notify_status dispatch in `main` -/

/-- A Python value passed to `notify_status`: one of the three `AppStatus`
members, or any other value (`other`, carrying its textual form for the
f-string in the else branch). -/
inductive PyStatus where
  | LOADING
  | READY
  | SLEEPING
  | other (s : String)
deriving DecidableEq, Repr

/-- The observable effect of one `notify_status` call: the `print` output and
the `ui.set_status_line` argument, if any. -/
structure NotifyEffect where
  log_lines : List String
  status_line_update : Option String
deriving DecidableEq, Repr

/-- `notify_status(status)` in `main`: an if/elif/elif/else chain on equality
with the three enum members; the else branch prints
`f"Unknown status! \x7bstatus\x7d"` and performs no status-line update. -/
def notify_status : PyStatus → NotifyEffect
  | PyStatus.LOADING =>
    { log_lines := ["Loading..."], status_line_update := some "Initializing..." }
  | PyStatus.SLEEPING =>
    { log_lines := ["Sleeping..."], status_line_update := some "Asleep..." }
  | PyStatus.READY =>
    { log_lines := ["Awake..."], status_line_update := some "Listening..." }
  | PyStatus.other s =>
    { log_lines := ["Unknown status! " ++ s], status_line_update := none }

/-! ### File-change debounce (`WatchDogFileChangeHandler.on_any_event`)

Times are integers in milliseconds; `timedelta(seconds=1)` is 1000. -/

/-- Handler state: `self.last_modified`, in milliseconds. -/
structure HandlerState where
  last_modified : Int
deriving DecidableEq, Repr

/-- `on_any_event`: if less than one second has passed since `last_modified`,
return without side effects; otherwise update `last_modified` and invoke
`do_restart` (the returned Bool records whether `do_restart` was invoked). -/
def on_any_event (st : HandlerState) (now : Int) : HandlerState × Bool :=
  if now - st.last_modified < 1000 then
    (st, false)
  else
    ({ last_modified := now }, true)

/-- Sequential delivery of a list of events to the handler, counting how many
invoked `do_restart`. -/
def processEvents : HandlerState → List Int → HandlerState × Nat
  | st, [] => (st, 0)
  | st, t :: ts =>
    let r := on_any_event st t
    let rest := processEvents r.1 ts
    (rest.1, (if r.2 then 1 else 0) + rest.2)

/-! ### Recognition callback (`on_recognition`) -/

/-- `on_recognition(words)`: joins the words with spaces and updates
`last_heard_var` (via `ui.set_last_heard`) only when the joined string is
non-empty (`if len(s):`). Returns the resulting `last_heard` variable. -/
def on_recognition (words : List String) (last_heard_var : FakeStringVar) :
    FakeStringVar :=
  let s := String.intercalate " " words
  if s.length ≠ 0 then
    last_heard_var.set ("Last heard: " ++ s)
  else
    last_heard_var

/-! ### Order properties of the Python string comparison -/

theorem charListLe_total (a b : List Char) :
    charListLe a b = true ∨ charListLe b a = true := by
  induction a generalizing b with
  | nil => exact Or.inl rfl
  | cons c cs ih =>
    cases b with
    | nil => exact Or.inr rfl
    | cons d ds =>
      by_cases h1 : c.toNat < d.toNat
      · left
        simp [charListLe, h1]
      · by_cases h2 : d.toNat < c.toNat
        · right
          simp [charListLe, h2]
        · rcases ih ds with h | h
          · left
            simp [charListLe, h1, h2, h]
          · right
            simp [charListLe, h1, h2, h]

theorem charListLe_trans (a b c : List Char) (hab : charListLe a b = true)
    (hbc : charListLe b c = true) : charListLe a c = true := by
  induction a generalizing b c with
  | nil => rfl
  | cons x xs ih =>
    cases b with
    | nil => simp [charListLe] at hab
    | cons y ys =>
      cases c with
      | nil => simp [charListLe] at hbc
      | cons z zs =>
        simp only [charListLe] at hab hbc ⊢
        by_cases hxy : x.toNat < y.toNat
        · by_cases hyz : y.toNat < z.toNat
          · simp [show x.toNat < z.toNat by omega]
          · by_cases hzy : z.toNat < y.toNat
            · simp [charListLe, hyz, hzy] at hbc
            · simp [show x.toNat < z.toNat by omega]
        · by_cases hyx : y.toNat < x.toNat
          · simp [hxy, hyx] at hab
          · by_cases hyz : y.toNat < z.toNat
            · simp [show x.toNat < z.toNat by omega]
            · by_cases hzy : z.toNat < y.toNat
              · simp [hyz, hzy] at hbc
              · simp only [hxy, hyx, if_neg, ite_false] at hab
                simp only [hyz, hzy, if_neg, ite_false] at hbc
                simp [show ¬ x.toNat < z.toNat by omega,
                  show ¬ z.toNat < x.toNat by omega, ih ys zs hab hbc]

theorem charListLe_antisymm (a b : List Char) (hab : charListLe a b = true)
    (hba : charListLe b a = true) : a = b := by
  induction a generalizing b with
  | nil =>
    cases b with
    | nil => rfl
    | cons d ds => simp [charListLe] at hba
  | cons c cs ih =>
    cases b with
    | nil => simp [charListLe] at hab
    | cons d ds =>
      simp only [charListLe] at hab hba
      by_cases h1 : c.toNat < d.toNat
      · simp [show ¬ d.toNat < c.toNat by omega, h1] at hba
      · by_cases h2 : d.toNat < c.toNat
        · simp [h1, h2] at hab
        · simp only [h1, h2, if_neg, ite_false] at hab hba
          have hcd : c = d := Char.ext (by
            apply UInt32.ext
            simpa [Char.toNat] using show c.toNat = d.toNat by omega)
          rw [hcd, ih ds hab hba]

instance : IsTotal String strLeRel :=
  ⟨fun a b => charListLe_total a.data b.data⟩

instance : IsTrans String strLeRel :=
  ⟨fun a b c => charListLe_trans a.data b.data c.data⟩

instance : IsAntisymm String strLeRel :=
  ⟨fun a b hab hba => by
    have h := charListLe_antisymm a.data b.data hab hba
    cases a
    cases b
    exact congrArg String.mk h⟩

/-! ### Claim C1: shutdown idempotence -/

/-- Claim C1 fails on the code: triggering shutdown once from the
window-close path and once from the voice path calls `engine.disconnect()`
twice, not once. -/
theorem C1_counterexample :
    (voice_do_quit (app_do_quit { disconnect_calls := 0 })).disconnect_calls ≠ 1 := by
  decide

/-- Claim C1, amended: each shutdown trigger invocation calls
`engine.disconnect()` exactly once, with no idempotence guard, so invoking
the shutdown request twice (voice command plus window-close confirmation)
results in exactly two engine-disconnect calls. -/
theorem C1_amended (e : EngineState) :
    (voice_do_quit (app_do_quit e)).disconnect_calls = e.disconnect_calls + 2 :=
  rfl

/-! ### Claim C2: removal of an absent context key -/

/-- Claim C2 fails on the code: `set_visual_context(k, None)` for an absent
key `k` executes `del self.context[k]`, which raises `KeyError` instead of
being a no-op. -/
theorem C2_counterexample :
    set_visual_context [] "a" none = Except.error () ∧
    set_visual_context [] "a" none ≠ Except.ok ([], renderContext []) := by
  refine ⟨rfl, fun h => ?_⟩
  simp [set_visual_context, dictDel] at h

/-- Claim C2, amended: for every context and key absent from it,
`set_visual_context(k, None)` raises `KeyError` (no update is applied and no
view is regenerated). -/
theorem C2_amended (ctx : List (String × String)) (k : String)
    (h : ctx.any (fun kv => kv.1 = k) = false) :
    set_visual_context ctx k none = Except.error () := by
  simp [set_visual_context, dictDel, h]

/-- Witness for C2_amended at a concrete absent key. -/
theorem C2_amended_witness :
    set_visual_context [("b", "2")] "a" none = Except.error () :=
  C2_amended [("b", "2")] "a" (by decide)

/-! ### Claim C3: wake idempotence side effects -/

/-- Claim C3 fails on the code: `wake(force=False)` while already AWAKE
still performs a status notification, because
`notify_status(AppStatus.READY)` sits outside the guard. -/
theorem C3_counterexample :
    (wake false initialSleepWakeState).notifications ≠
      initialSleepWakeState.notifications := by
  decide

/-- Claim C3, amended: `wake(force=False)` while already AWAKE performs
zero exclusiveness toggles but still issues exactly one READY status
notification; `wake(force=True)` performs exactly one exclusiveness-clear
and one READY notification regardless of the current state. -/
theorem C3_amended (st : SleepWakeState) :
    (st.sleeping = false →
      (wake false st).exclusiveness_calls = st.exclusiveness_calls ∧
      (wake false st).exclusive = st.exclusive ∧
      (wake false st).sleeping = false ∧
      (wake false st).notifications = st.notifications ++ [AppStatus.READY]) ∧
    ((wake true st).exclusiveness_calls = st.exclusiveness_calls ++ [false] ∧
      (wake true st).exclusive = false ∧
      (wake true st).sleeping = false ∧
      (wake true st).notifications = st.notifications ++ [AppStatus.READY]) := by
  constructor
  · intro h
    simp [wake, notifyTrace, h]
  · simp [wake, set_exclusiveness, notifyTrace]

/-- Witness for C3_amended at the initial (awake) state. -/
theorem C3_amended_witness :
    (wake false initialSleepWakeState).notifications =
      initialSleepWakeState.notifications ++ [AppStatus.READY] ∧
    (wake true initialSleepWakeState).exclusiveness_calls =
      initialSleepWakeState.exclusiveness_calls ++ [false] :=
  ⟨((C3_amended initialSleepWakeState).1 rfl).2.2.2,
    ((C3_amended initialSleepWakeState).2).1⟩

/-! ### Claim C4: composite view sort order -/

/-- Claim C4 fails on the code: the view sorts the formatted
`"key: value"` lines as whole strings, which differs from sorting entries
by key. With keys `"a"` and `"a!"`, the code renders `"a!: 2\na: 1"` while
the by-key order would be `"a: 1\na!: 2"`. -/
theorem C4_counterexample :
    set_visual_context [("a", "1")] "a!" (some "2") =
      Except.ok ([("a", "1"), ("a!", "2")], "a!: 2\na: 1") ∧
    renderContext [("a", "1"), ("a!", "2")] ≠
      renderContextSpec [("a", "1"), ("a!", "2")] := by
  exact ⟨rfl, by decide⟩

/-- Claim C4, amended: the composite view is the formatted `"key: value"`
lines sorted lexicographically as whole strings (not the entries sorted by
key), joined by newlines; it remains insertion-order independent — any two
contexts holding the same entries render byte-identically. -/
theorem C4_amended (ctx1 ctx2 : List (String × String)) (h : ctx1.Perm ctx2) :
    renderContext ctx1 = renderContext ctx2 := by
  unfold renderContext
  congr 1
  exact List.eq_of_perm_of_sorted
    (((List.perm_insertionSort strLeRel _).trans (h.map _)).trans
      (List.perm_insertionSort strLeRel _).symm)
    (List.sorted_insertionSort strLeRel _)
    (List.sorted_insertionSort strLeRel _)

/-- Witness for C4_amended: the two insertion orders of the claim's own
example render identically. -/
theorem C4_amended_witness :
    renderContext [("a", "1"), ("b", "2")] =
      renderContext [("b", "2"), ("a", "1")] :=
  C4_amended [("a", "1"), ("b", "2")] [("b", "2"), ("a", "1")]
    (List.Perm.swap ("b", "2") ("a", "1") [])

/-! ### Claim C5: no lost updates across the upgrade boundary -/

theorem foldl_set_eq_getLast (init : FakeStringVar) (writes : List String)
    (h : writes ≠ []) :
    writes.foldl FakeStringVar.set init = { value := writes.getLast h } := by
  induction writes generalizing init with
  | nil => exact absurd rfl h
  | cons w ws ih =>
    cases ws with
    | nil => rfl
    | cons w2 ws2 =>
      rw [List.foldl_cons, ih (FakeStringVar.set init w) (List.cons_ne_nil w2 ws2)]
      rfl

/-- Claim C5: for every non-empty sequence of `set` calls made on a
`FakeStringVar` before the UI attaches, upgrading and reading the live value
yields exactly the last written value — no write is lost across the upgrade
boundary. -/
theorem C5_no_lost_updates (init : FakeStringVar) (writes : List String)
    (h : writes ≠ []) :
    ((writes.foldl FakeStringVar.set init).upgrade).get = writes.getLast h := by
  rw [foldl_set_eq_getLast init writes h]
  rfl

/-- Witness for C5_no_lost_updates on a concrete write sequence. -/
theorem C5_witness :
    (((["Initializing...", "Listening..."].foldl FakeStringVar.set
        { value := "" })).upgrade).get = "Listening..." :=
  C5_no_lost_updates { value := "" } ["Initializing...", "Listening..."]
    (List.cons_ne_nil _ _)

/-! ### Claim C6: restart sequencing -/

/-- Claim C6 fails on the code: `restart_process` (the `do_restart` passed
to both trigger sites) performs no engine disconnect before the re-exec. -/
theorem C6_counterexample :
    ProcAction.disconnect ∉ restart_process "python3" ["kaldi_main.py"] := by
  decide

/-- Claim C6, amended: every restart trigger replaces the process image by
re-exec of the same interpreter with the original arguments (the interpreter
prepended as argv[0]), without performing any engine disconnect first. -/
theorem C6_amended (python : String) (argv : List String) :
    do_restart python argv = [ProcAction.execl python (python :: argv)] ∧
    ProcAction.disconnect ∉ do_restart python argv := by
  refine ⟨rfl, fun hmem => ?_⟩
  simp [do_restart, restart_process] at hmem

/-! ### Claim C7: initial state with initial_awake=False -/

/-- Claim C7: after `load_sleep_wake_grammar(initial_awake=False, ...)` and
before any further call, the system is ASLEEP: the sleeping flag is true,
the noise-grammar context predicate evaluates true, the sleep grammar's
exclusiveness is enabled, and the forced initial transition ran exactly once
(one exclusiveness call and one notification in the traces). -/
theorem C7_initial_asleep :
    (load_sleep_wake_grammar false initialSleepWakeState).sleeping = true ∧
    sleep_noise_context (load_sleep_wake_grammar false initialSleepWakeState) = true ∧
    (load_sleep_wake_grammar false initialSleepWakeState).exclusive = true ∧
    (load_sleep_wake_grammar false initialSleepWakeState).exclusiveness_calls = [true] ∧
    (load_sleep_wake_grammar false initialSleepWakeState).notifications =
      [AppStatus.SLEEPING] := by
  decide

/-! ### Claim C8: unknown status dispatch -/

/-- Claim C8 fails on the code: `notify_status` has an `else` branch, so a
value other than the three enum members produces log output
(`"Unknown status! ..."`) rather than being silently ignored. -/
theorem C8_counterexample :
    (notify_status (PyStatus.other "4")).log_lines ≠ [] := by
  decide

/-- Claim C8, amended: a status value other than LOADING, READY and SLEEPING
reaches the `else` branch, which logs `"Unknown status! ..."` and performs
no status-line update; the three known status values each produce a distinct
observable notification. -/
theorem C8_amended (s : String) :
    (notify_status (PyStatus.other s)).log_lines = ["Unknown status! " ++ s] ∧
    (notify_status (PyStatus.other s)).status_line_update = none ∧
    notify_status PyStatus.LOADING ≠ notify_status PyStatus.READY ∧
    notify_status PyStatus.LOADING ≠ notify_status PyStatus.SLEEPING ∧
    notify_status PyStatus.READY ≠ notify_status PyStatus.SLEEPING := by
  exact ⟨rfl, rfl, by decide, by decide, by decide⟩

/-! ### Claim C9: file-change debounce -/

theorem processEvents_all_rejected (t0 : Int) (ts : List Int)
    (st : HandlerState) (hst : t0 ≤ st.last_modified)
    (hw : ∀ t ∈ ts, t0 ≤ t ∧ t < t0 + 1000) :
    processEvents st ts = (st, 0) := by
  induction ts with
  | nil => rfl
  | cons t ts ih =>
    have ht := hw t (List.mem_cons_self t ts)
    have hrej : t - st.last_modified < 1000 := by omega
    have hrest := ih (fun u hu => hw u (List.mem_cons_of_mem t hu))
    simp [processEvents, on_any_event, hrej, hrest]

theorem processEvents_burst (t0 : Int) :
    ∀ (ts : List Int) (st : HandlerState),
      (∀ t ∈ ts, t0 ≤ t ∧ t < t0 + 1000) → (processEvents st ts).2 ≤ 1
  | [], _, _ => by simp [processEvents]
  | t :: ts, st, hw => by
    by_cases hrej : t - st.last_modified < 1000
    · have hrest := processEvents_burst t0 ts st
        (fun u hu => hw u (List.mem_cons_of_mem t hu))
      simpa [processEvents, on_any_event, hrej] using hrest
    · have ht := hw t (List.mem_cons_self t ts)
      have hrest := processEvents_all_rejected t0 ts { last_modified := t }
        (by simpa using ht.1) (fun u hu => hw u (List.mem_cons_of_mem t hu))
      simp [processEvents, on_any_event, hrej, hrest]

/-- Claim C9: events are debounced over a one-second window. Any sequence of
events all falling within one 1000 ms window invokes `do_restart` at most
once, and an event arriving less than one second after the previously
accepted event never invokes `do_restart` (and leaves the handler state
unchanged). -/
theorem C9_debounce (st : HandlerState) (t0 : Int) (ts : List Int)
    (hw : ∀ t ∈ ts, t0 ≤ t ∧ t < t0 + 1000) :
    (processEvents st ts).2 ≤ 1 ∧
    ∀ (u : HandlerState) (t : Int), t - u.last_modified < 1000 →
      on_any_event u t = (u, false) :=
  ⟨processEvents_burst t0 ts st hw, fun u t h => by simp [on_any_event, h]⟩

/-- Witness for C9_debounce on a concrete three-event burst. -/
theorem C9_witness :
    (processEvents { last_modified := -100000 } [0, 400, 900]).2 ≤ 1 ∧
    ∀ (u : HandlerState) (t : Int), t - u.last_modified < 1000 →
      on_any_event u t = (u, false) :=
  C9_debounce { last_modified := -100000 } 0 [0, 400, 900] (by decide)

/-! ### Claim C10: empty recognition leaves last-heard unchanged -/

/-- Claim C10: when the recognized word list joins to the empty string,
`on_recognition` leaves the last-heard display variable unchanged — it
updates the value only when the joined phrase is non-empty. -/
theorem C10_empty_no_update (words : List String) (v : FakeStringVar)
    (h : String.intercalate " " words = "") :
    on_recognition words v = v := by
  simp [on_recognition, h]

/-- Witness for C10_empty_no_update at the empty word list. -/
theorem C10_witness :
    on_recognition [] { value := "Last heard: hi" } = { value := "Last heard: hi" } :=
  C10_empty_no_update [] { value := "Last heard: hi" } rfl

end Kaldi
